import Mathlib

/-!
Verification of the bear-mcp-server repository (a Model Context Protocol
adapter for the Bear note-taking app's x-callback-url scheme).

The development shallowly embeds the TypeScript source:
* `buildBearURL` (src/index.ts `buildBearURL`): percent-encoded query
  serialization of an action plus a parameter record;
* the callback query decoder inside `executeWithCallback`;
* the per-tool parameter builders (`openNote`, `createNote`, ...);
* the effect trace of `executeWithCallback`'s three exit paths
  (callback received, handler exception, 10 second timeout);
* the `getTags` handler's required-token guard;
* server startup (the `token` field is declared but never assigned).

JavaScript values that can be `undefined`/`null` are modelled with
`Option`; JS truthiness on the argument fields that the handlers test is
modelled by `truthyS` / `truthyB`.
-/

namespace BearMCP

/-! ## Bytes, hex and UTF-8 helpers (used by the percent codecs) -/

/-- Uppercase hexadecimal digit for `n < 16`. -/
def hexDigitU (n : Nat) : Char :=
  if n < 10 then Char.ofNat (48 + n) else Char.ofNat (55 + n)

/-- Two-digit uppercase hex rendering of a byte. -/
def byteHex (b : Nat) : String :=
  String.mk [hexDigitU (b / 16 % 16), hexDigitU (b % 16)]

/-- UTF-8 bytes of one code point. -/
def utf8Bytes (c : Char) : List Nat :=
  let n := c.toNat
  if n < 0x80 then [n]
  else if n < 0x800 then [0xC0 + n / 64, 0x80 + n % 64]
  else if n < 0x10000 then
    [0xE0 + n / 4096, 0x80 + (n / 64) % 64, 0x80 + n % 64]
  else
    [0xF0 + n / 262144, 0x80 + (n / 4096) % 64, 0x80 + (n / 64) % 64, 0x80 + n % 64]

/-- The bytes of a string's UTF-8 encoding. -/
def strBytes (s : String) : List Nat :=
  (s.data.map utf8Bytes).flatten

/-! ## `encodeURIComponent`

JavaScript's `encodeURIComponent` leaves the unreserved characters
`A-Z a-z 0-9 - _ . ! ~ * ' ( )` untouched and percent-encodes the UTF-8
bytes of every other character with uppercase hex digits. -/

/-- Characters `encodeURIComponent` passes through unescaped. -/
def isUriUnreserved (c : Char) : Bool :=
  (('A' ≤ c && c ≤ 'Z') || ('a' ≤ c && c ≤ 'z') || ('0' ≤ c && c ≤ '9')
    || c = '-' || c = '_' || c = '.' || c = '!' || c = '~' || c = '*'
    || c = Char.ofNat 39 || c = '(' || c = ')')

/-- Encoding of a single character: itself if unreserved, otherwise the
percent-encoded UTF-8 bytes. -/
def encChar (c : Char) : String :=
  if isUriUnreserved c then String.singleton c
  else String.join ((utf8Bytes c).map (fun b => "%" ++ byteHex b))

/-- Model of JavaScript's `encodeURIComponent`. -/
def encodeURIComponent (s : String) : String :=
  String.join (s.data.map encChar)

/-! ## Parameter records and `buildBearURL`

`buildBearURL(action, params)` walks `Object.entries(params)` in insertion
order, skips entries whose value is `undefined` or `null`, percent-encodes
key and value (the value after JS `String(...)` coercion) and joins the
parts with `&`; a `?` is appended only when the query string is nonempty.
A record is modelled as an insertion-ordered association list whose `none`
values are the `undefined`/`null` entries. -/

/-- A parameter value: JS `string | boolean`. -/
inductive PVal where
  | str (s : String)
  | bool (b : Bool)
deriving DecidableEq

/-- JS `String(value)` coercion on a parameter value. -/
def pvalString : PVal → String
  | .str s => s
  | .bool b => cond b "true" "false"

/-- A JS parameter record (`Record<string, string | boolean>` whose entries
may be `undefined`/`null`), in insertion order. -/
abbrev Params := List (String × Option PVal)

/-- The `key=value` parts pushed by the loop in `buildBearURL`: one part per
entry with a defined, non-null value, in insertion order. -/
def queryParts (params : Params) : List String :=
  params.filterMap (fun kv =>
    kv.2.map (fun v =>
      encodeURIComponent kv.1 ++ "=" ++ encodeURIComponent (pvalString v)))

/-- Model of `buildBearURL` (src/index.ts lines 71-85 / the callback variant
lines 304-318). -/
def buildBearURL (action : String) (params : Params) : String :=
  let baseURL := "bear://x-callback-url/" ++ action
  let queryString := String.intercalate "&" (queryParts params)
  if queryString = "" then baseURL else baseURL ++ "?" ++ queryString

/-- The defined (non-`undefined`/`null`) entries of a record, in order. -/
def outEntries (params : Params) : List (String × PVal) :=
  params.filterMap (fun kv => kv.2.map (fun v => (kv.1, v)))

/-- The keys that contribute a query part. -/
def outKeys (params : Params) : List String :=
  (outEntries params).map Prod.fst

/-! ## JSON values and `JSON.parse`

The callback decoder calls `JSON.parse` on the raw value of the `notes`
and `tags` query parameters. `Json` models the JSON-representable JS
values that flow out of the decoder (the decoder also stores plain strings
and booleans, which reuse the `str` and `bool` constructors). Numeric
literals are kept as their source lexeme: no claim inspects a number, and
this avoids modelling floating point. -/

inductive Json where
  | null
  | bool (b : Bool)
  | num (lit : String)
  | str (s : String)
  | arr (elems : List Json)
  | obj (fields : List (String × Json))

/-- Hexadecimal digit value, if any. -/
def hexVal (c : Char) : Option Nat :=
  if '0' ≤ c ∧ c ≤ '9' then some (c.toNat - 48)
  else if 'A' ≤ c ∧ c ≤ 'F' then some (c.toNat - 55)
  else if 'a' ≤ c ∧ c ≤ 'f' then some (c.toNat - 87)
  else none

/-- JSON insignificant whitespace. -/
def isJsonWs (c : Char) : Bool :=
  c = ' ' || c = '\t' || c = '\n' || c = '\r'

/-- Drop leading JSON whitespace. -/
def skipWs : List Char → List Char
  | [] => []
  | c :: cs => if isJsonWs c then skipWs cs else c :: cs

/-- A code point produced while decoding, with UTF-16 surrogates (which a
Lean `Char` cannot hold) replaced by U+FFFD. -/
def mkChar (n : Nat) : Char :=
  if 0xD800 ≤ n ∧ n < 0xE000 then Char.ofNat 0xFFFD else Char.ofNat n

/-- Body of a JSON string literal after the opening quote: returns the
decoded characters and the input after the closing quote. Escapes follow
`JSON.parse`; a `\uXXXX` high surrogate followed by a low surrogate escape
yields the combined code point, and unescaped control characters are
rejected. -/
def lexStringBody : List Char → Option (List Char × List Char)
  | [] => none
  | '"' :: rest => some ([], rest)
  | '\\' :: 'u' :: a :: b :: c :: d :: '\\' :: 'u' :: e :: f :: g :: h :: rest2 =>
    match hexVal a, hexVal b, hexVal c, hexVal d with
    | some ha, some hb, some hc, some hd =>
      let n := ((ha * 16 + hb) * 16 + hc) * 16 + hd
      match hexVal e, hexVal f, hexVal g, hexVal h with
      | some he, some hf, some hg, some hh =>
        let m := ((he * 16 + hf) * 16 + hg) * 16 + hh
        if (0xD800 ≤ n ∧ n < 0xDC00) ∧ (0xDC00 ≤ m ∧ m < 0xE000) then
          (lexStringBody rest2).map (fun p =>
            (Char.ofNat (0x10000 + (n - 0xD800) * 0x400 + (m - 0xDC00)) :: p.1, p.2))
        else
          (lexStringBody ('\\' :: 'u' :: e :: f :: g :: h :: rest2)).map
            (fun p => (mkChar n :: p.1, p.2))
      | _, _, _, _ =>
        (lexStringBody ('\\' :: 'u' :: e :: f :: g :: h :: rest2)).map
          (fun p => (mkChar n :: p.1, p.2))
    | _, _, _, _ => none
  | '\\' :: 'u' :: a :: b :: c :: d :: rest =>
    match hexVal a, hexVal b, hexVal c, hexVal d with
    | some ha, some hb, some hc, some hd =>
      let n := ((ha * 16 + hb) * 16 + hc) * 16 + hd
      (lexStringBody rest).map (fun p => (mkChar n :: p.1, p.2))
    | _, _, _, _ => none
  | '\\' :: e :: rest =>
    let esc : Option Char :=
      if e = '"' then some '"'
      else if e = '\\' then some '\\'
      else if e = '/' then some '/'
      else if e = 'b' then some (Char.ofNat 8)
      else if e = 'f' then some (Char.ofNat 12)
      else if e = 'n' then some '\n'
      else if e = 'r' then some '\r'
      else if e = 't' then some '\t'
      else none
    match esc with
    | some c => (lexStringBody rest).map (fun p => (c :: p.1, p.2))
    | none => none
  | c :: rest =>
    if c.toNat < 0x20 then none
    else (lexStringBody rest).map (fun p => (c :: p.1, p.2))
termination_by cs => cs.length
decreasing_by all_goals (simp only [List.length_cons]; omega)

/-- Leading decimal digits of the input. -/
def takeDigits : List Char → List Char × List Char
  | [] => ([], [])
  | c :: cs =>
    if c.isDigit then
      let p := takeDigits cs
      (c :: p.1, p.2)
    else ([], c :: cs)

/-- A JSON number literal (`-? int frac? exp?`, no leading zeros), kept as
its lexeme. -/
def lexNumber (cs : List Char) : Option (String × List Char) :=
  let (sign, cs₁) :=
    match cs with
    | '-' :: rest => (['-'], rest)
    | _ => (([] : List Char), cs)
  match cs₁ with
  | [] => none
  | c :: rest =>
    if ¬ c.isDigit then none
    else if c = '0' ∨ rest.isEmpty ∨ ¬ (rest.headD ' ').isDigit then
      -- int part is a single digit, or `0` (JSON forbids further leading digits after 0)
      if c ≠ '0' ∧ (rest.headD ' ').isDigit then
        let p := takeDigits rest
        lexNumberTail (sign ++ c :: p.1) p.2
      else
        lexNumberTail (sign ++ [c]) rest
    else
      let p := takeDigits rest
      if c = '0' then none
      else lexNumberTail (sign ++ c :: p.1) p.2
where
  /-- Optional fraction and exponent after the integer part. -/
  lexNumberTail (intPart : List Char) (cs : List Char) : Option (String × List Char) :=
    let (frac, cs₂) :=
      match cs with
      | '.' :: rest =>
        let p := takeDigits rest
        if p.1.isEmpty then (none, cs) else (some ('.' :: p.1), p.2)
      | _ => (none, cs)
    match frac, cs with
    | none, '.' :: _ => none
    | _, _ =>
      let fracPart := frac.getD []
      let (ex, cs₃) :=
        match cs₂ with
        | e :: rest =>
          if e = 'e' ∨ e = 'E' then
            let (sgn, rest₁) :=
              match rest with
              | '+' :: r => (['+'], r)
              | '-' :: r => (['-'], r)
              | _ => (([] : List Char), rest)
            let p := takeDigits rest₁
            if p.1.isEmpty then (none, cs₂) else (some (e :: sgn ++ p.1), p.2)
          else (none, cs₂)
        | [] => (none, cs₂)
      match ex, cs₂ with
      | none, e :: _ =>
        if e = 'e' ∨ e = 'E' then none
        else some (String.mk (intPart ++ fracPart), cs₂)
      | _, _ =>
        some (String.mk (intPart ++ fracPart ++ ex.getD []), cs₃)

mutual

/-- Recursive-descent `JSON.parse` value parser (fuel-indexed). -/
def parseJsonVal : Nat → List Char → Option (Json × List Char)
  | 0, _ => none
  | fuel + 1, cs =>
    match skipWs cs with
    | 'n' :: 'u' :: 'l' :: 'l' :: rest => some (.null, rest)
    | 't' :: 'r' :: 'u' :: 'e' :: rest => some (.bool true, rest)
    | 'f' :: 'a' :: 'l' :: 's' :: 'e' :: rest => some (.bool false, rest)
    | '"' :: rest => (lexStringBody rest).map (fun p => (.str (String.mk p.1), p.2))
    | '[' :: rest =>
      (match skipWs rest with
       | ']' :: rest2 => some (.arr [], rest2)
       | rest2 => (parseArrItems fuel rest2).map (fun p => (.arr p.1, p.2)))
    | '{' :: rest =>
      (match skipWs rest with
       | '}' :: rest2 => some (.obj [], rest2)
       | rest2 => (parseObjItems fuel rest2).map (fun p => (.obj p.1, p.2)))
    | rest => (lexNumber rest).map (fun p => (.num p.1, p.2))

/-- One or more array items followed by `]`. -/
def parseArrItems : Nat → List Char → Option (List Json × List Char)
  | 0, _ => none
  | fuel + 1, cs =>
    match parseJsonVal fuel cs with
    | none => none
    | some (j, rest) =>
      match skipWs rest with
      | ',' :: rest2 => (parseArrItems fuel rest2).map (fun p => (j :: p.1, p.2))
      | ']' :: rest2 => some ([j], rest2)
      | _ => none

/-- One or more `"key": value` members followed by `}`. -/
def parseObjItems : Nat → List Char → Option (List (String × Json) × List Char)
  | 0, _ => none
  | fuel + 1, cs =>
    match skipWs cs with
    | '"' :: rest =>
      match lexStringBody rest with
      | none => none
      | some (key, rest1) =>
        match skipWs rest1 with
        | ':' :: rest2 =>
          match parseJsonVal fuel rest2 with
          | none => none
          | some (j, rest3) =>
            match skipWs rest3 with
            | ',' :: rest4 => (parseObjItems fuel rest4).map (fun p =>
                ((String.mk key, j) :: p.1, p.2))
            | '}' :: rest4 => some ([(String.mk key, j)], rest4)
            | _ => none
        | _ => none
    | _ => none

end

/-- Model of `JSON.parse`: parse one value, allow trailing whitespace only. -/
def jsonParse (s : String) : Option Json :=
  match parseJsonVal (2 * s.length + 2) s.data with
  | some (j, rest) => if skipWs rest = [] then some j else none
  | none => none

/-! ## The callback query decoder

`executeWithCallback` (src/unnamed/part_000 lines 330-351) folds the
received query parameters into `callbackData`, an initially empty JS
object. The stored value of each pair is chosen by a branch chain on the
key:

1. `notes`/`tags`: `JSON.parse` the raw value, falling back to the raw
   string on a parse failure;
2. `tags` with `callbackData[key]` falsy: split on commas (dead code —
   branch 1 already matched `tags`);
3. `is_trashed`/`pin`: `value === 'yes'`;
4. anything else: the raw string. -/

/-- JS falsiness of `callbackData[key]` (an absent key is `undefined`,
hence falsy; a number is falsy when its mantissa is all zeros). -/
def jsFalsy : Option Json → Bool
  | none => true
  | some .null => true
  | some (.bool b) => !b
  | some (.str s) => s = ""
  | some (.num lit) =>
    (lit.data.takeWhile (fun c => c ≠ 'e' ∧ c ≠ 'E')).all (fun c => ¬ (c.isDigit ∧ c ≠ '0'))
  | some (.arr _) => false
  | some (.obj _) => false

/-- JS object assignment `acc[k] = v`: overwrite in place, else append. -/
def objSet (acc : List (String × Json)) (k : String) (v : Json) : List (String × Json) :=
  if acc.any (fun kv => kv.1 == k) then
    acc.map (fun kv => if kv.1 == k then (k, v) else kv)
  else acc ++ [(k, v)]

/-- The guard of the comma-separated-`tags` branch: reached only when the
first branch declined the key yet the key is `tags` and the already-stored
value is falsy. -/
def commaBranchTaken (acc : List (String × Json)) (key : String) : Bool :=
  !(key == "notes" || key == "tags") && (key == "tags" && jsFalsy (List.lookup key acc))

/-- The value stored into `callbackData[key]` for one query pair, following
the source's branch chain (including the dead comma-separated branch). -/
def decodeEntryValue (acc : List (String × Json)) (key value : String) : Json :=
  if key == "notes" || key == "tags" then
    match jsonParse value with
    | some j => j
    | none => .str value
  else if key == "tags" && jsFalsy (List.lookup key acc) then
    .arr (if value == "" then []
          else ((value.splitOn ",").filter (fun s => s ≠ "")).map Json.str)
  else if key == "is_trashed" || key == "pin" then
    .bool (value == "yes")
  else
    .str value

/-- `decodeEntryValue` with the dead comma-separated branch removed. -/
def decodeEntryValueNoComma (_acc : List (String × Json)) (key value : String) : Json :=
  if key == "notes" || key == "tags" then
    match jsonParse value with
    | some j => j
    | none => .str value
  else if key == "is_trashed" || key == "pin" then
    .bool (value == "yes")
  else
    .str value

/-- The decoded `callbackData` object for a full query-pair list. -/
def decodeParams (q : List (String × String)) : List (String × Json) :=
  q.foldl (fun acc kv => objSet acc kv.1 (decodeEntryValue acc kv.1 kv.2)) []

/-- The spec's per-field decoding rule table, stated from its words:
note/tag collection fields attempt JSON parsing first and fall back to the
raw string; boolean-convention fields are true iff the raw value is the
literal `yes`; every other field passes through as a plain string. -/
def specDecodeRule (key value : String) : Json :=
  if key == "notes" || key == "tags" then
    match jsonParse value with
    | some j => j
    | none => .str value
  else if key == "is_trashed" || key == "pin" then
    .bool (value == "yes")
  else
    .str value

/-! ## Query-string parsing (`URLSearchParams`)

`executeWithCallback` reads the callback request's query through
`new URL(req.url, 'http://localhost').searchParams`. Parsing follows the
WHATWG `application/x-www-form-urlencoded` rules: split on `&`, skip empty
segments, split each segment at the first `=`, replace `+` with space and
percent-decode the UTF-8 bytes of key and value. -/

/-- Percent-decode a byte sequence; malformed escapes pass through. -/
def percentDecode : List Nat → List Nat
  | 0x25 :: h1 :: h2 :: rest =>
    match hexVal (Char.ofNat h1), hexVal (Char.ofNat h2) with
    | some a, some b => (16 * a + b) :: percentDecode rest
    | _, _ => 0x25 :: percentDecode (h1 :: h2 :: rest)
  | b :: rest => b :: percentDecode rest
  | [] => []

/-- UTF-8 decoding with U+FFFD replacement on malformed sequences. -/
def utf8Decode : List Nat → List Char
  | [] => []
  | b1 :: rest =>
    if b1 < 0x80 then Char.ofNat b1 :: utf8Decode rest
    else if 0xC2 ≤ b1 ∧ b1 ≤ 0xDF then
      match rest with
      | b2 :: rest2 =>
        if 0x80 ≤ b2 ∧ b2 ≤ 0xBF then
          Char.ofNat ((b1 - 0xC0) * 64 + (b2 - 0x80)) :: utf8Decode rest2
        else Char.ofNat 0xFFFD :: utf8Decode (b2 :: rest2)
      | [] => [Char.ofNat 0xFFFD]
    else if 0xE0 ≤ b1 ∧ b1 ≤ 0xEF then
      match rest with
      | b2 :: b3 :: rest2 =>
        let n := (b1 - 0xE0) * 4096 + (b2 - 0x80) * 64 + (b3 - 0x80)
        if (0x80 ≤ b2 ∧ b2 ≤ 0xBF) ∧ (0x80 ≤ b3 ∧ b3 ≤ 0xBF)
            ∧ 0x800 ≤ n ∧ ¬ (0xD800 ≤ n ∧ n < 0xE000) then
          Char.ofNat n :: utf8Decode rest2
        else Char.ofNat 0xFFFD :: utf8Decode (b2 :: b3 :: rest2)
      | _ => [Char.ofNat 0xFFFD]
    else if 0xF0 ≤ b1 ∧ b1 ≤ 0xF4 then
      match rest with
      | b2 :: b3 :: b4 :: rest2 =>
        let n := (b1 - 0xF0) * 262144 + (b2 - 0x80) * 4096 + (b3 - 0x80) * 64 + (b4 - 0x80)
        if (0x80 ≤ b2 ∧ b2 ≤ 0xBF) ∧ (0x80 ≤ b3 ∧ b3 ≤ 0xBF) ∧ (0x80 ≤ b4 ∧ b4 ≤ 0xBF)
            ∧ 0x10000 ≤ n ∧ n < 0x110000 then
          Char.ofNat n :: utf8Decode rest2
        else Char.ofNat 0xFFFD :: utf8Decode (b2 :: b3 :: b4 :: rest2)
      | _ => [Char.ofNat 0xFFFD]
    else Char.ofNat 0xFFFD :: utf8Decode rest

/-- `application/x-www-form-urlencoded` decoding of one component. -/
def formUrlDecode (s : String) : String :=
  String.mk (utf8Decode (percentDecode
    ((strBytes s).map (fun b => if b = 0x2B then 0x20 else b))))

/-- Split a segment at its first `=`; a segment without `=` is all key. -/
def splitKV : List Char → List Char × List Char
  | [] => ([], [])
  | '=' :: rest => ([], rest)
  | c :: rest =>
    let p := splitKV rest
    (c :: p.1, p.2)

/-- Split on a separator character (like JS `String.prototype.split` with a
one-character separator). -/
def splitChar (sep : Char) : List Char → List (List Char)
  | [] => [[]]
  | c :: rest =>
    let r := splitChar sep rest
    if c = sep then [] :: r
    else
      match r with
      | h :: t => (c :: h) :: t
      | [] => [[c]]

/-- Model of `URLSearchParams` iteration over a query string. -/
def parseQuery (s : String) : List (String × String) :=
  let cs :=
    match s.data with
    | '?' :: rest => rest
    | cs => cs
  (splitChar '&' cs).filterMap (fun seg =>
    match seg with
    | [] => none
    | _ =>
      let p := splitKV seg
      some (formUrlDecode (String.mk p.1), formUrlDecode (String.mk p.2)))

/-! ## Tool-handler argument records and parameter builders

Each handler receives `args` (a JS object) and fills a fresh `params`
record with a fixed sequence of statements of three shapes:

* `if (args.x) params.x = args.x;` — a string passed through when truthy
  (so an absent field and the empty string are both skipped);
* `if (args.x) params.x = "yes";` — a boolean flag encoded as the literal
  `"yes"` when truthy and omitted otherwise;
* `x: args.x` in the initial object literal — an unconditional entry.

The sequences are reified as `Seg` lists, one `Seg` per source statement,
evaluated left to right. Argument fields are `Option`-valued (`none` is an
absent/`undefined` field). -/

/-- JS truthiness of an optional string argument. -/
def truthyS : Option String → Bool
  | none => false
  | some s => s ≠ ""

/-- JS truthiness of an optional boolean argument. -/
def truthyB : Option Bool → Bool
  | none => false
  | some b => b

/-- One parameter-building statement of a tool handler. -/
inductive Seg where
  | str (k : String) (v : Option String)
  | flag (k : String) (v : Option Bool)
  | req (k : String) (v : Option String)

/-- The target key of a statement. -/
def Seg.key : Seg → String
  | .str k _ => k
  | .flag k _ => k
  | .req k _ => k

/-- The record entries a statement contributes. -/
def Seg.entries : Seg → Params
  | .str k v => if truthyS v then [(k, some (PVal.str (v.getD "")))] else []
  | .flag k v => if truthyB v then [(k, some (PVal.str "yes"))] else []
  | .req k v => [(k, v.map PVal.str)]

/-- The record built by a statement sequence (all keys are distinct in
every handler, so sequential assignment is concatenation). -/
def segList (l : List Seg) : Params :=
  l.foldr (fun s acc => s.entries ++ acc) []

/-- Arguments of `bear_open_note`. -/
structure OpenNoteArgs where
  id : Option String := none
  title : Option String := none
  header : Option String := none
  exclude_trashed : Option Bool := none
  new_window : Option Bool := none
  edit : Option Bool := none
  selected : Option String := none
  pin : Option Bool := none
  float : Option Bool := none
  show_window : Option Bool := none
  open_note : Option Bool := none
  search : Option String := none

/-- `openNote`'s parameter-building statements (lines 983-997). -/
def openNoteSegs (a : OpenNoteArgs) : List Seg :=
  [.str "id" a.id, .str "title" a.title, .str "header" a.header,
   .flag "exclude_trashed" a.exclude_trashed, .flag "new_window" a.new_window,
   .flag "edit" a.edit, .str "selected" a.selected, .flag "pin" a.pin,
   .flag "float" a.float, .flag "show_window" a.show_window,
   .flag "open_note" a.open_note, .str "search" a.search]

/-- The `params` record `openNote` passes on. -/
def openNoteParams (a : OpenNoteArgs) : Params := segList (openNoteSegs a)

/-- Arguments of `bear_create_note`. -/
structure CreateNoteArgs where
  title : Option String := none
  text : Option String := none
  tags : Option String := none
  pin : Option Bool := none
  timestamp : Option Bool := none
  clipboard : Option Bool := none
  file : Option String := none
  filename : Option String := none
  open_note : Option Bool := none
  new_window : Option Bool := none
  float : Option Bool := none
  show_window : Option Bool := none
  edit : Option Bool := none
  type : Option String := none
  url : Option String := none

/-- `createNote`'s parameter-building statements. -/
def createNoteSegs (a : CreateNoteArgs) : List Seg :=
  [.str "title" a.title, .str "text" a.text, .str "tags" a.tags,
   .flag "pin" a.pin, .flag "timestamp" a.timestamp, .flag "clipboard" a.clipboard,
   .str "file" a.file, .str "filename" a.filename, .flag "open_note" a.open_note,
   .flag "new_window" a.new_window, .flag "float" a.float,
   .flag "show_window" a.show_window, .flag "edit" a.edit,
   .str "type" a.type, .str "url" a.url]

/-- The `params` record `createNote` passes on. -/
def createNoteParams (a : CreateNoteArgs) : Params := segList (createNoteSegs a)

/-- Arguments of `bear_add_text`. -/
structure AddTextArgs where
  id : Option String := none
  title : Option String := none
  text : Option String := none
  mode : Option String := none
  new_line : Option Bool := none
  header : Option String := none
  selected : Option String := none
  clipboard : Option Bool := none
  exclude_trashed : Option Bool := none
  open_note : Option Bool := none
  new_window : Option Bool := none
  show_window : Option Bool := none
  edit : Option Bool := none
  timestamp : Option Bool := none

/-- `addText`'s parameter-building statements. -/
def addTextSegs (a : AddTextArgs) : List Seg :=
  [.str "id" a.id, .str "title" a.title, .str "text" a.text, .str "mode" a.mode,
   .flag "new_line" a.new_line, .str "header" a.header, .str "selected" a.selected,
   .flag "clipboard" a.clipboard, .flag "exclude_trashed" a.exclude_trashed,
   .flag "open_note" a.open_note, .flag "new_window" a.new_window,
   .flag "show_window" a.show_window, .flag "edit" a.edit, .flag "timestamp" a.timestamp]

/-- The `params` record `addText` passes on. -/
def addTextParams (a : AddTextArgs) : Params := segList (addTextSegs a)

/-- Arguments of `bear_add_file`. -/
structure AddFileArgs where
  id : Option String := none
  title : Option String := none
  selected : Option String := none
  file : Option String := none
  header : Option String := none
  filename : Option String := none
  mode : Option String := none
  open_note : Option Bool := none
  new_window : Option Bool := none
  show_window : Option Bool := none
  edit : Option Bool := none

/-- `addFile`'s parameter-building statements. -/
def addFileSegs (a : AddFileArgs) : List Seg :=
  [.str "id" a.id, .str "title" a.title, .str "selected" a.selected,
   .str "file" a.file, .str "header" a.header, .str "filename" a.filename,
   .str "mode" a.mode, .flag "open_note" a.open_note, .flag "new_window" a.new_window,
   .flag "show_window" a.show_window, .flag "edit" a.edit]

/-- The `params` record `addFile` passes on. -/
def addFileParams (a : AddFileArgs) : Params := segList (addFileSegs a)

/-- Arguments of `bear_search`. -/
structure SearchArgs where
  term : Option String := none
  tag : Option String := none
  token : Option String := none
  show_window : Option Bool := none

/-- `search`'s parameter-building statements. -/
def searchSegs (a : SearchArgs) : List Seg :=
  [.str "term" a.term, .str "tag" a.tag, .str "token" a.token,
   .flag "show_window" a.show_window]

/-- The `params` record `search` passes on. -/
def searchParams (a : SearchArgs) : Params := segList (searchSegs a)

/-- Arguments of `bear_open_tag`. -/
structure OpenTagArgs where
  name : Option String := none
  token : Option String := none
  show_window : Option Bool := none

/-- `openTag`'s parameter-building statements (initial `{ name: args.name }`
then conditionals). -/
def openTagSegs (a : OpenTagArgs) : List Seg :=
  [.req "name" a.name, .str "token" a.token, .flag "show_window" a.show_window]

/-- The `params` record `openTag` passes on. -/
def openTagParams (a : OpenTagArgs) : Params := segList (openTagSegs a)

/-- Arguments of `bear_trash_note` / `bear_archive_note`. -/
structure TrashArchiveArgs where
  id : Option String := none
  search : Option String := none
  show_window : Option Bool := none

/-- `trashNote`'s (and `archiveNote`'s) parameter-building statements. -/
def trashNoteSegs (a : TrashArchiveArgs) : List Seg :=
  [.str "id" a.id, .str "search" a.search, .flag "show_window" a.show_window]

/-- The `params` record `trashNote` passes on. -/
def trashNoteParams (a : TrashArchiveArgs) : Params := segList (trashNoteSegs a)

/-- `archiveNote` builds the same record shape as `trashNote`. -/
def archiveNoteParams (a : TrashArchiveArgs) : Params := segList (trashNoteSegs a)

/-- Arguments of `bear_get_untagged` / `bear_get_todo` / `bear_get_today`. -/
structure SearchTokenArgs where
  search : Option String := none
  token : Option String := none
  show_window : Option Bool := none

/-- `getUntagged`'s (and `getTodo`'s, `getToday`'s) statements. -/
def getUntaggedSegs (a : SearchTokenArgs) : List Seg :=
  [.str "search" a.search, .str "token" a.token, .flag "show_window" a.show_window]

/-- The `params` record `getUntagged` passes on. -/
def getUntaggedParams (a : SearchTokenArgs) : Params := segList (getUntaggedSegs a)

/-- The `params` record `getTodo` passes on. -/
def getTodoParams (a : SearchTokenArgs) : Params := segList (getUntaggedSegs a)

/-- The `params` record `getToday` passes on. -/
def getTodayParams (a : SearchTokenArgs) : Params := segList (getUntaggedSegs a)

/-- Arguments of `bear_get_locked`. -/
structure GetLockedArgs where
  search : Option String := none
  show_window : Option Bool := none

/-- `getLocked`'s parameter-building statements. -/
def getLockedSegs (a : GetLockedArgs) : List Seg :=
  [.str "search" a.search, .flag "show_window" a.show_window]

/-- The `params` record `getLocked` passes on. -/
def getLockedParams (a : GetLockedArgs) : Params := segList (getLockedSegs a)

/-- Arguments of `bear_grab_url`. -/
structure GrabUrlArgs where
  url : Option String := none
  tags : Option String := none
  pin : Option Bool := none
  wait : Option Bool := none

/-- `grabUrl`'s parameter-building statements (initial `{ url: args.url }`). -/
def grabUrlSegs (a : GrabUrlArgs) : List Seg :=
  [.req "url" a.url, .str "tags" a.tags, .flag "pin" a.pin, .flag "wait" a.wait]

/-- The `params` record `grabUrl` passes on. -/
def grabUrlParams (a : GrabUrlArgs) : Params := segList (grabUrlSegs a)

/-- Arguments of `bear_rename_tag`. -/
structure RenameTagArgs where
  name : Option String := none
  new_name : Option String := none
  show_window : Option Bool := none

/-- `renameTag`'s parameter-building statements (initial object literal
holds both `name` and `new_name`). -/
def renameTagSegs (a : RenameTagArgs) : List Seg :=
  [.req "name" a.name, .req "new_name" a.new_name, .flag "show_window" a.show_window]

/-- The `params` record `renameTag` passes on. -/
def renameTagParams (a : RenameTagArgs) : Params := segList (renameTagSegs a)

/-- Arguments of `bear_delete_tag`. -/
structure DeleteTagArgs where
  name : Option String := none
  show_window : Option Bool := none

/-- `deleteTag`'s parameter-building statements. -/
def deleteTagSegs (a : DeleteTagArgs) : List Seg :=
  [.req "name" a.name, .flag "show_window" a.show_window]

/-- The `params` record `deleteTag` passes on. -/
def deleteTagParams (a : DeleteTagArgs) : Params := segList (deleteTagSegs a)

/-! ## The Callback Receiver's exit paths

`executeWithCallback` (src/unnamed/part_000 lines 320-422) resolves in one
of three ways, each modelled as an event:

* `request q`: the first inbound request arrives with query pairs `q` and
  the handler body runs to completion — it answers 200 with the
  window-closing HTML, calls `server.close()` and resolves the decoded
  data;
* `requestThrow`: an exception escapes inside the handler's `try` block —
  the `catch` answers 500, calls `server.close()` and rejects;
* `timeout`: no request arrived, the 10-second `setTimeout` fires — it
  calls `server.close()` and rejects with `'Callback timeout'`.

Each event's observable behaviour is recorded as an effect trace in the
statement order of the source. -/

/-- The hard-coded callback timeout in milliseconds (`setTimeout(..., 10000)`). -/
def callbackTimeoutMs : Nat := 10000

/-- How one callback-bearing invocation resolves. -/
inductive CbEvent where
  | request (q : List (String × String))
  | requestThrow (msg : String)
  | timeout

/-- An observable step of the Callback Receiver. -/
inductive CbEffect where
  | writeHead (status : Nat)
  | closeListener
  | resolveData (data : List (String × Json))
  | rejectErr (msg : String)

/-- The effect trace of each exit path, in source statement order. -/
def callbackTrace : CbEvent → List CbEffect
  | .request q =>
    [.writeHead 200, .closeListener, .resolveData (decodeParams q)]
  | .requestThrow msg =>
    [.writeHead 500, .closeListener,
     .rejectErr ("Failed to parse callback data: " ++ msg)]
  | .timeout =>
    [.closeListener, .rejectErr "Callback timeout"]

/-- Whether the listener is still open once the invocation has settled. -/
def listenerOpenAfter (ev : CbEvent) : Bool :=
  !(callbackTrace ev).any (fun e =>
    match e with
    | .closeListener => true
    | _ => false)

/-- The race between the inbound callback and the timeout: the event that
fires first, given the arrival time of the callback in milliseconds
(`none` when no callback ever arrives). -/
def firstEvent (arrival : Option Nat) (q : List (String × String)) : CbEvent :=
  match arrival with
  | some t => if t < callbackTimeoutMs then .request q else .timeout
  | none => .timeout

/-! ## `getTags` and server startup -/

/-- A tool-execution error (`McpError`). -/
inductive ToolError where
  | invalidParams (msg : String)
  | internalError (msg : String)
deriving DecidableEq

/-- Observable outcome of one `getTags` call. -/
structure GetTagsRun where
  result : Except ToolError (List (String × Json))
  startedListener : Bool
  openedURL : Bool
  url : Option String

/-- Model of the `getTags` handler (part_000 lines 1100-1119): a falsy
`args.token` throws `InvalidParams` before any listener or URL action;
otherwise `executeWithCallback("tags", { token: args.token })` starts the
listener, appends the `x-success` callback address, opens the built URL
and settles according to the callback event. -/
def getTagsRun (token : Option String) (port : Nat) (ev : CbEvent) : GetTagsRun :=
  if truthyS token = false then
    { result := .error (.invalidParams "Token is required for getTags")
      startedListener := false
      openedURL := false
      url := none }
  else
    let params : Params := [("token", token.map PVal.str)]
    let callbackUrl := "http://localhost:" ++ toString port ++ "/callback"
    let params2 := params ++ [("x-success", some (PVal.str callbackUrl))]
    let bearUrl := buildBearURL "tags" params2
    { result :=
        match ev with
        | .request q => .ok (decodeParams q)
        | .requestThrow msg =>
          .error (.internalError ("Failed to parse callback data: " ++ msg))
        | .timeout => .error (.internalError "Callback timeout")
      startedListener := true
      openedURL := true
      url := some bearUrl }

/-- Server startup state: the class's `token` field. -/
structure ServerState where
  token : Option String

/-- Model of the `BearMCPServer` constructor: it takes whatever process
environment is present but never reads it — the `token` field is declared
(src/index.ts line 40) and never assigned anywhere in the program. -/
def initServer (_env : List (String × String)) : ServerState :=
  { token := none }

/-- A boolean-flag key of a handler behaves per the `yes`-encoding
convention: the built record maps the key to the string `"yes"` exactly
when the argument is truthy, and otherwise does not contain the key. -/
def flagOk (p : Params) (k : String) (o : Option Bool) : Prop :=
  List.lookup k p = (if truthyB o then some (some (PVal.str "yes")) else none)
  ∧ ((k ∈ p.map Prod.fst) ↔ truthyB o = true)

/-! ## Theorems -/

/-- Evaluation fact: `JSON.parse` accepts the empty JSON array. -/
lemma jsonParse_empty_arr : jsonParse "[]" = some (Json.arr []) := rfl

/-- C1 step 1: the value the decoder stores never depends on the dead
comma-separated branch, so it coincides with the spec's rule table. -/
lemma decodeEntryValue_eq_rule (acc : List (String × Json)) (key value : String) :
    decodeEntryValue acc key value = specDecodeRule key value := by
  cases hn : key == "notes" <;> cases ht : key == "tags" <;>
    simp [decodeEntryValue, specDecodeRule, hn, ht]

/-- C1. Every query key/value pair is decoded exactly as the reference
rule table prescribes: `notes`/`tags` go through `JSON.parse` with a
raw-string fallback (in particular `[]` becomes the empty list, not the
string `"[]"`); `is_trashed`/`pin` become the boolean `value == "yes"`;
every other key passes its raw string through unchanged. -/
theorem c1_decoder_matches_rule_table :
    (∀ acc key value, decodeEntryValue acc key value = specDecodeRule key value)
    ∧ (∀ acc, decodeEntryValue acc "notes" "[]" = Json.arr [])
    ∧ (∀ acc value, decodeEntryValue acc "is_trashed" value = Json.bool (value == "yes"))
    ∧ (∀ acc value, decodeEntryValue acc "pin" value = Json.bool (value == "yes")) := by
  refine ⟨decodeEntryValue_eq_rule, ?_, ?_, ?_⟩
  · intro acc
    simp [decodeEntryValue, jsonParse_empty_arr]
  · intro acc value
    simp [decodeEntryValue]
  · intro acc value
    simp [decodeEntryValue]

/-- C9. The comma-separated-`tags` branch of the decoder is dead code: its
guard can never hold (the JSON branch already consumes the key `tags`),
and removing the branch leaves the decoder unchanged on all inputs. -/
theorem c9_comma_branch_unreachable :
    (∀ acc key, commaBranchTaken acc key = false)
    ∧ (∀ acc key value,
        decodeEntryValue acc key value = decodeEntryValueNoComma acc key value) := by
  constructor
  · intro acc key
    cases hn : key == "notes" <;> cases ht : key == "tags" <;>
      simp [commaBranchTaken, hn, ht]
  · intro acc key value
    cases hn : key == "notes" <;> cases ht : key == "tags" <;>
      simp [decodeEntryValue, decodeEntryValueNoComma, hn, ht]

/-- C4. Building the `search` URL for `{term: "foo", tag: "bar"}` yields
exactly `bear://x-callback-url/search?term=foo&tag=bar` with the pairs in
insertion order, and decoding that query string with the callback decoder
recovers the mapping. -/
theorem c4_search_roundtrip :
    buildBearURL "search" [("term", some (PVal.str "foo")), ("tag", some (PVal.str "bar"))]
      = "bear://x-callback-url/search?term=foo&tag=bar"
    ∧ decodeParams (parseQuery "term=foo&tag=bar")
      = [("term", Json.str "foo"), ("tag", Json.str "bar")] :=
  ⟨rfl, rfl⟩

/-- C10 core: a record whose values are all `undefined`/`null` contributes
no query parts. -/
lemma queryParts_eq_nil_of_all_none (params : Params)
    (h : ∀ kv ∈ params, kv.2 = none) : queryParts params = [] := by
  rw [queryParts, List.filterMap_eq_nil_iff]
  intro kv hkv
  simp [h kv hkv]

/-- C10. For every action, a parameter record that is empty or has only
`undefined`/`null` values builds exactly `bear://x-callback-url/<action>`,
with no `?` appended. -/
theorem c10_no_query_when_all_absent (action : String) (params : Params)
    (h : ∀ kv ∈ params, kv.2 = none) :
    buildBearURL action params = "bear://x-callback-url/" ++ action := by
  simp [buildBearURL, queryParts_eq_nil_of_all_none params h, String.intercalate]

/-- Witness for C10 at a concrete action and record. -/
theorem c10_witness :
    buildBearURL "search" [("id", none)] = "bear://x-callback-url/search" :=
  c10_no_query_when_all_absent "search" [("id", none)] (by decide)

/-- C2 step 1: the query parts are exactly the rendered defined entries,
in order. -/
lemma queryParts_eq_map_outEntries (params : Params) :
    queryParts params = (outEntries params).map
      (fun kv => encodeURIComponent kv.1 ++ "=" ++ encodeURIComponent (pvalString kv.2)) := by
  induction params with
  | nil => rfl
  | cons kv rest ih =>
    cases h : kv.2 <;>
      simp [queryParts, outEntries, List.filterMap_cons, h] at ih ⊢ <;>
      simpa [queryParts, outEntries] using ih


/-- `outKeys` over a cons with an absent value. -/
lemma outKeys_cons_none (kv : String × Option PVal) (rest : Params)
    (hv : kv.2 = none) : outKeys (kv :: rest) = outKeys rest := by
  simp [outKeys, outEntries, List.filterMap_cons, hv]

/-- `outKeys` over a cons with a defined value. -/
lemma outKeys_cons_some (kv : String × Option PVal) (rest : Params) (v : PVal)
    (hv : kv.2 = some v) : outKeys (kv :: rest) = kv.1 :: outKeys rest := by
  simp [outKeys, outEntries, List.filterMap_cons, hv]

/-- A key in the output comes from some record key. -/
lemma mem_keys_of_mem_outKeys (params : Params) (k : String)
    (h : k ∈ outKeys params) : k ∈ params.map Prod.fst := by
  induction params with
  | nil => simp [outKeys, outEntries] at h
  | cons kv rest ih =>
    rw [List.map_cons]
    cases hv : kv.2 with
    | none =>
      rw [outKeys_cons_none kv rest hv] at h
      exact List.mem_cons_of_mem _ (ih h)
    | some v =>
      rw [outKeys_cons_some kv rest v hv] at h
      rcases List.mem_cons.mp h with h | h
      · exact h ▸ List.mem_cons_self _ _
      · exact List.mem_cons_of_mem _ (ih h)

/-- C2 step 2: with distinct record keys, a defined key contributes exactly
one part. -/
lemma count_outKeys_of_defined (params : Params)
    (hnd : (params.map Prod.fst).Nodup) (k : String) (v : PVal)
    (hmem : (k, some v) ∈ params) : (outKeys params).count k = 1 := by
  induction params with
  | nil => cases hmem
  | cons kv rest ih =>
    rw [List.map_cons, List.nodup_cons] at hnd
    rcases List.mem_cons.mp hmem with heq | hr
    · have hkv2 : kv.2 = some v := by rw [← heq]
      have hkv1 : kv.1 = k := by rw [← heq]
      have hnotin : k ∉ outKeys rest := fun hmem2 =>
        hnd.1 (hkv1 ▸ mem_keys_of_mem_outKeys rest k hmem2)
      rw [outKeys_cons_some kv rest v hkv2, hkv1, List.count_cons,
        List.count_eq_zero.mpr hnotin]
      simp
    · have hk : k ∈ rest.map Prod.fst := List.mem_map.mpr ⟨(k, some v), hr, rfl⟩
      have hne : kv.1 ≠ k := fun he => hnd.1 (he ▸ hk)
      have hcount := ih hnd.2 hr
      cases hv : kv.2 with
      | none => rw [outKeys_cons_none kv rest hv]; exact hcount
      | some w =>
        rw [outKeys_cons_some kv rest w hv, List.count_cons, hcount]
        simp [hne]

/-- C2 step 3: with distinct record keys, an `undefined`/`null` key
contributes no part. -/
lemma not_mem_outKeys_of_none (params : Params)
    (hnd : (params.map Prod.fst).Nodup) (k : String)
    (hmem : (k, (none : Option PVal)) ∈ params) : k ∉ outKeys params := by
  induction params with
  | nil => cases hmem
  | cons kv rest ih =>
    rw [List.map_cons, List.nodup_cons] at hnd
    rcases List.mem_cons.mp hmem with heq | hr
    · have hkv2 : kv.2 = none := by rw [← heq]
      have hkv1 : kv.1 = k := by rw [← heq]
      rw [outKeys_cons_none kv rest hkv2]
      exact fun hmem2 => hnd.1 (hkv1 ▸ mem_keys_of_mem_outKeys rest k hmem2)
    · have hk : k ∈ rest.map Prod.fst := List.mem_map.mpr ⟨(k, none), hr, rfl⟩
      have hne : kv.1 ≠ k := fun he => hnd.1 (he ▸ hk)
      cases hv : kv.2 with
      | none => rw [outKeys_cons_none kv rest hv]; exact ih hnd.2 hr
      | some w =>
        rw [outKeys_cons_some kv rest w hv]
        intro hmem2
        rcases List.mem_cons.mp hmem2 with h | h
        · exact hne h.symm
        · exact ih hnd.2 hr h

/-- C2. For every parameter record with distinct keys: the query parts are
exactly the percent-encoded renderings of the defined entries in insertion
order; every key with a defined, non-null value appears exactly once among
the emitted pairs; and no key with an `undefined`/`null` value appears at
all. -/
theorem c2_query_serialization (params : Params)
    (hnd : (params.map Prod.fst).Nodup) :
    queryParts params = (outEntries params).map
      (fun kv => encodeURIComponent kv.1 ++ "=" ++ encodeURIComponent (pvalString kv.2))
    ∧ (∀ k v, (k, some v) ∈ params → (outKeys params).count k = 1)
    ∧ (∀ k, (k, (none : Option PVal)) ∈ params → k ∉ outKeys params) :=
  ⟨queryParts_eq_map_outEntries params,
   fun k v hm => count_outKeys_of_defined params hnd k v hm,
   fun k hm => not_mem_outKeys_of_none params hnd k hm⟩

/-- Witness for C2 at a concrete record. -/
theorem c2_witness :
    (([("term", some (PVal.str "foo")), ("skip", (none : Option PVal))].map
        (Prod.fst)).Nodup)
    ∧ (outKeys [("term", some (PVal.str "foo")), ("skip", none)]).count "term" = 1
    ∧ "skip" ∉ outKeys [("term", some (PVal.str "foo")), ("skip", none)] :=
  ⟨by decide,
   (c2_query_serialization _ (by decide)).2.1 "term" (PVal.str "foo") (by decide),
   (c2_query_serialization _ (by decide)).2.2 "skip" (by decide)⟩


/-- `segList` unfolding. -/
lemma segList_cons (s : Seg) (l : List Seg) :
    segList (s :: l) = s.entries ++ segList l := rfl

/-- Every entry a statement contributes carries that statement's key. -/
lemma Seg.key_of_mem_entries (s : Seg) (kv : String × Option PVal)
    (h : kv ∈ s.entries) : kv.1 = Seg.key s := by
  cases s with
  | str k v =>
    by_cases hv : truthyS v = true <;> simp [Seg.entries, Seg.key, hv] at h ⊢
    simp [h]
  | flag k v =>
    by_cases hv : truthyB v = true <;> simp [Seg.entries, Seg.key, hv] at h ⊢
    simp [h]
  | req k v =>
    simp [Seg.entries, Seg.key] at h ⊢
    simp [h]

/-- A key of the built record is the key of some statement. -/
lemma mem_segKeys_of_mem_keys (l : List Seg) (k : String)
    (h : k ∈ (segList l).map Prod.fst) : k ∈ l.map Seg.key := by
  induction l with
  | nil => simp [segList] at h
  | cons s rest ih =>
    rw [segList_cons, List.map_append] at h
    rw [List.map_cons]
    rcases List.mem_append.mp h with h | h
    · rcases List.mem_map.mp h with ⟨kv, hkv, hk⟩
      exact List.mem_cons.mpr (Or.inl (by
        rw [← hk, Seg.key_of_mem_entries s kv hkv]))
    · exact List.mem_cons_of_mem _ (ih h)

/-- An association list without the key looks it up to `none`. -/
lemma lookup_eq_none_of_not_mem {β : Type} (l : List (String × β)) (k : String)
    (h : k ∉ l.map Prod.fst) : List.lookup k l = none := by
  induction l with
  | nil => rfl
  | cons kv rest ih =>
    obtain ⟨a, b⟩ := kv
    rw [List.map_cons] at h
    have h1 : (k == a) = false := beq_eq_false_iff_ne.mpr
      (fun he => h (he ▸ List.mem_cons_self _ _))
    have h2 : k ∉ rest.map Prod.fst := fun hm => h (List.mem_cons_of_mem _ hm)
    rw [List.lookup, h1, ih h2]

/-- Lookup skips a prefix that does not contain the key. -/
lemma lookup_append_of_not_mem_left {β : Type} (l1 l2 : List (String × β))
    (k : String) (h : k ∉ l1.map Prod.fst) :
    List.lookup k (l1 ++ l2) = List.lookup k l2 := by
  induction l1 with
  | nil => rfl
  | cons kv rest ih =>
    obtain ⟨a, b⟩ := kv
    rw [List.map_cons] at h
    have h1 : (k == a) = false := beq_eq_false_iff_ne.mpr
      (fun he => h (he ▸ List.mem_cons_self _ _))
    have h2 : k ∉ rest.map Prod.fst := fun hm => h (List.mem_cons_of_mem _ hm)
    rw [List.cons_append, List.lookup, h1, ih h2]

/-- Main C3 lemma: in a statement sequence that assigns the key `k` exactly
once, namely by a flag statement with argument `o`, the built record
satisfies the `yes`-encoding convention for `k`. -/
lemma lookup_segList_flag (l : List Seg) (k : String) (o : Option Bool)
    (hmem : Seg.flag k o ∈ l) (hcount : (l.map Seg.key).count k = 1) :
    flagOk (segList l) k o := by
  induction l with
  | nil => cases hmem
  | cons s rest ih =>
    rw [List.map_cons, List.count_cons] at hcount
    rcases List.mem_cons.mp hmem with heq | hmem'
    · -- the head statement is the flag assignment for k
      have hkey : Seg.key s = k := by rw [← heq]; rfl
      have hcz : (rest.map Seg.key).count k = 0 := by
        simp [hkey] at hcount; omega
      have hnotin : k ∉ rest.map Seg.key := List.count_eq_zero.mp hcz
      have hnotin2 : k ∉ (segList rest).map Prod.fst := fun hm =>
        hnotin (mem_segKeys_of_mem_keys rest k hm)
      have hsegeq : s.entries =
          (if truthyB o then [(k, some (PVal.str "yes"))] else []) := by
        rw [← heq]; rfl
      constructor
      · rw [segList_cons, hsegeq]
        cases ho : truthyB o with
        | false =>
          simpa [ho] using lookup_eq_none_of_not_mem (segList rest) k hnotin2
        | true => simp [ho, List.lookup]
      · rw [segList_cons, hsegeq]
        cases ho : truthyB o with
        | false =>
          refine iff_of_false ?_ (by simp [ho])
          simpa [ho] using hnotin2
        | true =>
          refine iff_of_true ?_ rfl
          simp [ho]
    · -- the flag assignment for k is in the tail
      have hk : k ∈ rest.map Seg.key :=
        List.mem_map.mpr ⟨Seg.flag k o, hmem', rfl⟩
      have hpos : 0 < (rest.map Seg.key).count k := List.count_pos_iff.mpr hk
      have hne : Seg.key s ≠ k := by
        intro he
        simp [he] at hcount
        omega
      have hcr : (rest.map Seg.key).count k = 1 := by
        by_cases hskey : (Seg.key s == k) = true
        · exact absurd (eq_of_beq hskey) hne
        · simp [hskey] at hcount; omega
      have hnot1 : k ∉ s.entries.map Prod.fst := by
        intro hm
        rcases List.mem_map.mp hm with ⟨kv, hkv, hkk⟩
        exact hne (by rw [← Seg.key_of_mem_entries s kv hkv, hkk])
      have ihr := ih hmem' hcr
      constructor
      · rw [segList_cons, lookup_append_of_not_mem_left _ _ _ hnot1]
        exact ihr.1
      · rw [segList_cons, List.map_append]
        constructor
        · intro hm
          rcases List.mem_append.mp hm with hm | hm
          · exact absurd hm hnot1
          · exact ihr.2.mp hm
        · intro ho
          exact List.mem_append.mpr (Or.inr (ihr.2.mpr ho))


/-- The statement keys of `openNoteSegs`. -/
lemma openNoteSegs_keys (a : OpenNoteArgs) : (openNoteSegs a).map Seg.key =
    ["id", "title", "header", "exclude_trashed", "new_window", "edit", "selected", "pin", "float", "show_window", "open_note", "search"] := rfl

/-- The statement keys of `createNoteSegs`. -/
lemma createNoteSegs_keys (a : CreateNoteArgs) : (createNoteSegs a).map Seg.key =
    ["title", "text", "tags", "pin", "timestamp", "clipboard", "file", "filename", "open_note", "new_window", "float", "show_window", "edit", "type", "url"] := rfl

/-- The statement keys of `addTextSegs`. -/
lemma addTextSegs_keys (a : AddTextArgs) : (addTextSegs a).map Seg.key =
    ["id", "title", "text", "mode", "new_line", "header", "selected", "clipboard", "exclude_trashed", "open_note", "new_window", "show_window", "edit", "timestamp"] := rfl

/-- The statement keys of `addFileSegs`. -/
lemma addFileSegs_keys (a : AddFileArgs) : (addFileSegs a).map Seg.key =
    ["id", "title", "selected", "file", "header", "filename", "mode", "open_note", "new_window", "show_window", "edit"] := rfl

/-- The statement keys of `searchSegs`. -/
lemma searchSegs_keys (a : SearchArgs) : (searchSegs a).map Seg.key =
    ["term", "tag", "token", "show_window"] := rfl

/-- The statement keys of `openTagSegs`. -/
lemma openTagSegs_keys (a : OpenTagArgs) : (openTagSegs a).map Seg.key =
    ["name", "token", "show_window"] := rfl

/-- The statement keys of `trashNoteSegs`. -/
lemma trashNoteSegs_keys (a : TrashArchiveArgs) : (trashNoteSegs a).map Seg.key =
    ["id", "search", "show_window"] := rfl

/-- The statement keys of `getUntaggedSegs`. -/
lemma getUntaggedSegs_keys (a : SearchTokenArgs) : (getUntaggedSegs a).map Seg.key =
    ["search", "token", "show_window"] := rfl

/-- The statement keys of `getLockedSegs`. -/
lemma getLockedSegs_keys (a : GetLockedArgs) : (getLockedSegs a).map Seg.key =
    ["search", "show_window"] := rfl

/-- The statement keys of `grabUrlSegs`. -/
lemma grabUrlSegs_keys (a : GrabUrlArgs) : (grabUrlSegs a).map Seg.key =
    ["url", "tags", "pin", "wait"] := rfl

/-- The statement keys of `renameTagSegs`. -/
lemma renameTagSegs_keys (a : RenameTagArgs) : (renameTagSegs a).map Seg.key =
    ["name", "new_name", "show_window"] := rfl

/-- The statement keys of `deleteTagSegs`. -/
lemma deleteTagSegs_keys (a : DeleteTagArgs) : (deleteTagSegs a).map Seg.key =
    ["name", "show_window"] := rfl

/-- C3. For every tool handler and every boolean-flag argument: a truthy
flag puts the key into the outgoing record with the exact string value
`yes`; a false or absent flag leaves the key out of the record (and hence
out of the URL) entirely; in particular no flag key is ever encoded as
`no`. -/
theorem c3_boolean_flag_convention :
    (∀ a : OpenNoteArgs,
      flagOk (openNoteParams a) "exclude_trashed" a.exclude_trashed
      ∧ flagOk (openNoteParams a) "new_window" a.new_window
      ∧ flagOk (openNoteParams a) "edit" a.edit
      ∧ flagOk (openNoteParams a) "pin" a.pin
      ∧ flagOk (openNoteParams a) "float" a.float
      ∧ flagOk (openNoteParams a) "show_window" a.show_window
      ∧ flagOk (openNoteParams a) "open_note" a.open_note)
    ∧
    (∀ a : CreateNoteArgs,
      flagOk (createNoteParams a) "pin" a.pin
      ∧ flagOk (createNoteParams a) "timestamp" a.timestamp
      ∧ flagOk (createNoteParams a) "clipboard" a.clipboard
      ∧ flagOk (createNoteParams a) "open_note" a.open_note
      ∧ flagOk (createNoteParams a) "new_window" a.new_window
      ∧ flagOk (createNoteParams a) "float" a.float
      ∧ flagOk (createNoteParams a) "show_window" a.show_window
      ∧ flagOk (createNoteParams a) "edit" a.edit)
    ∧
    (∀ a : AddTextArgs,
      flagOk (addTextParams a) "new_line" a.new_line
      ∧ flagOk (addTextParams a) "clipboard" a.clipboard
      ∧ flagOk (addTextParams a) "exclude_trashed" a.exclude_trashed
      ∧ flagOk (addTextParams a) "open_note" a.open_note
      ∧ flagOk (addTextParams a) "new_window" a.new_window
      ∧ flagOk (addTextParams a) "show_window" a.show_window
      ∧ flagOk (addTextParams a) "edit" a.edit
      ∧ flagOk (addTextParams a) "timestamp" a.timestamp)
    ∧
    (∀ a : AddFileArgs,
      flagOk (addFileParams a) "open_note" a.open_note
      ∧ flagOk (addFileParams a) "new_window" a.new_window
      ∧ flagOk (addFileParams a) "show_window" a.show_window
      ∧ flagOk (addFileParams a) "edit" a.edit)
    ∧
    (∀ a : SearchArgs,
      flagOk (searchParams a) "show_window" a.show_window)
    ∧
    (∀ a : OpenTagArgs,
      flagOk (openTagParams a) "show_window" a.show_window)
    ∧
    (∀ a : TrashArchiveArgs,
      flagOk (trashNoteParams a) "show_window" a.show_window)
    ∧
    (∀ a : TrashArchiveArgs,
      flagOk (archiveNoteParams a) "show_window" a.show_window)
    ∧
    (∀ a : SearchTokenArgs,
      flagOk (getUntaggedParams a) "show_window" a.show_window)
    ∧
    (∀ a : SearchTokenArgs,
      flagOk (getTodoParams a) "show_window" a.show_window)
    ∧
    (∀ a : SearchTokenArgs,
      flagOk (getTodayParams a) "show_window" a.show_window)
    ∧
    (∀ a : GetLockedArgs,
      flagOk (getLockedParams a) "show_window" a.show_window)
    ∧
    (∀ a : GrabUrlArgs,
      flagOk (grabUrlParams a) "pin" a.pin
      ∧ flagOk (grabUrlParams a) "wait" a.wait)
    ∧
    (∀ a : RenameTagArgs,
      flagOk (renameTagParams a) "show_window" a.show_window)
    ∧
    (∀ a : DeleteTagArgs,
      flagOk (deleteTagParams a) "show_window" a.show_window) :=
  ⟨fun a =>
    ⟨lookup_segList_flag _ "exclude_trashed" a.exclude_trashed (by simp [openNoteSegs]) (by rw [openNoteSegs_keys]; decide),
     lookup_segList_flag _ "new_window" a.new_window (by simp [openNoteSegs]) (by rw [openNoteSegs_keys]; decide),
     lookup_segList_flag _ "edit" a.edit (by simp [openNoteSegs]) (by rw [openNoteSegs_keys]; decide),
     lookup_segList_flag _ "pin" a.pin (by simp [openNoteSegs]) (by rw [openNoteSegs_keys]; decide),
     lookup_segList_flag _ "float" a.float (by simp [openNoteSegs]) (by rw [openNoteSegs_keys]; decide),
     lookup_segList_flag _ "show_window" a.show_window (by simp [openNoteSegs]) (by rw [openNoteSegs_keys]; decide),
     lookup_segList_flag _ "open_note" a.open_note (by simp [openNoteSegs]) (by rw [openNoteSegs_keys]; decide)⟩,
   fun a =>
    ⟨lookup_segList_flag _ "pin" a.pin (by simp [createNoteSegs]) (by rw [createNoteSegs_keys]; decide),
     lookup_segList_flag _ "timestamp" a.timestamp (by simp [createNoteSegs]) (by rw [createNoteSegs_keys]; decide),
     lookup_segList_flag _ "clipboard" a.clipboard (by simp [createNoteSegs]) (by rw [createNoteSegs_keys]; decide),
     lookup_segList_flag _ "open_note" a.open_note (by simp [createNoteSegs]) (by rw [createNoteSegs_keys]; decide),
     lookup_segList_flag _ "new_window" a.new_window (by simp [createNoteSegs]) (by rw [createNoteSegs_keys]; decide),
     lookup_segList_flag _ "float" a.float (by simp [createNoteSegs]) (by rw [createNoteSegs_keys]; decide),
     lookup_segList_flag _ "show_window" a.show_window (by simp [createNoteSegs]) (by rw [createNoteSegs_keys]; decide),
     lookup_segList_flag _ "edit" a.edit (by simp [createNoteSegs]) (by rw [createNoteSegs_keys]; decide)⟩,
   fun a =>
    ⟨lookup_segList_flag _ "new_line" a.new_line (by simp [addTextSegs]) (by rw [addTextSegs_keys]; decide),
     lookup_segList_flag _ "clipboard" a.clipboard (by simp [addTextSegs]) (by rw [addTextSegs_keys]; decide),
     lookup_segList_flag _ "exclude_trashed" a.exclude_trashed (by simp [addTextSegs]) (by rw [addTextSegs_keys]; decide),
     lookup_segList_flag _ "open_note" a.open_note (by simp [addTextSegs]) (by rw [addTextSegs_keys]; decide),
     lookup_segList_flag _ "new_window" a.new_window (by simp [addTextSegs]) (by rw [addTextSegs_keys]; decide),
     lookup_segList_flag _ "show_window" a.show_window (by simp [addTextSegs]) (by rw [addTextSegs_keys]; decide),
     lookup_segList_flag _ "edit" a.edit (by simp [addTextSegs]) (by rw [addTextSegs_keys]; decide),
     lookup_segList_flag _ "timestamp" a.timestamp (by simp [addTextSegs]) (by rw [addTextSegs_keys]; decide)⟩,
   fun a =>
    ⟨lookup_segList_flag _ "open_note" a.open_note (by simp [addFileSegs]) (by rw [addFileSegs_keys]; decide),
     lookup_segList_flag _ "new_window" a.new_window (by simp [addFileSegs]) (by rw [addFileSegs_keys]; decide),
     lookup_segList_flag _ "show_window" a.show_window (by simp [addFileSegs]) (by rw [addFileSegs_keys]; decide),
     lookup_segList_flag _ "edit" a.edit (by simp [addFileSegs]) (by rw [addFileSegs_keys]; decide)⟩,
   fun a =>
     lookup_segList_flag _ "show_window" a.show_window (by simp [searchSegs]) (by rw [searchSegs_keys]; decide),
   fun a =>
     lookup_segList_flag _ "show_window" a.show_window (by simp [openTagSegs]) (by rw [openTagSegs_keys]; decide),
   fun a =>
     lookup_segList_flag _ "show_window" a.show_window (by simp [trashNoteSegs]) (by rw [trashNoteSegs_keys]; decide),
   fun a =>
     lookup_segList_flag _ "show_window" a.show_window (by simp [trashNoteSegs]) (by rw [trashNoteSegs_keys]; decide),
   fun a =>
     lookup_segList_flag _ "show_window" a.show_window (by simp [getUntaggedSegs]) (by rw [getUntaggedSegs_keys]; decide),
   fun a =>
     lookup_segList_flag _ "show_window" a.show_window (by simp [getUntaggedSegs]) (by rw [getUntaggedSegs_keys]; decide),
   fun a =>
     lookup_segList_flag _ "show_window" a.show_window (by simp [getUntaggedSegs]) (by rw [getUntaggedSegs_keys]; decide),
   fun a =>
     lookup_segList_flag _ "show_window" a.show_window (by simp [getLockedSegs]) (by rw [getLockedSegs_keys]; decide),
   fun a =>
    ⟨lookup_segList_flag _ "pin" a.pin (by simp [grabUrlSegs]) (by rw [grabUrlSegs_keys]; decide),
     lookup_segList_flag _ "wait" a.wait (by simp [grabUrlSegs]) (by rw [grabUrlSegs_keys]; decide)⟩,
   fun a =>
     lookup_segList_flag _ "show_window" a.show_window (by simp [renameTagSegs]) (by rw [renameTagSegs_keys]; decide),
   fun a =>
     lookup_segList_flag _ "show_window" a.show_window (by simp [deleteTagSegs]) (by rw [deleteTagSegs_keys]; decide)⟩

/-- Witness for C3: the `pin` flag of `bear_open_note`, set and unset. -/
theorem c3_witness :
    flagOk (openNoteParams { pin := some true }) "pin" (some true)
    ∧ flagOk (openNoteParams {}) "pin" none :=
  ⟨(c3_boolean_flag_convention.1 { pin := some true }).2.2.2.1,
   (c3_boolean_flag_convention.1 {}).2.2.2.1⟩


/-- C5. When no inbound request arrives before the 10-second bound, the
invocation settles by the timeout path: the listener is closed, the
pending call rejects with `Callback timeout`, no listener stays open, and
the bound is exactly 10000 milliseconds. -/
theorem c5_timeout_closes_and_rejects (arrival : Option Nat)
    (q : List (String × String))
    (h : ∀ t, arrival = some t → callbackTimeoutMs ≤ t) :
    callbackTrace (firstEvent arrival q)
      = [CbEffect.closeListener, CbEffect.rejectErr "Callback timeout"]
    ∧ listenerOpenAfter (firstEvent arrival q) = false
    ∧ callbackTimeoutMs = 10000 := by
  have hev : firstEvent arrival q = CbEvent.timeout := by
    cases arrival with
    | none => rfl
    | some t =>
      have ht := h t rfl
      simp [firstEvent, Nat.not_lt.mpr ht]
  rw [hev]
  exact ⟨rfl, rfl, rfl⟩

/-- Witness for C5: no callback ever arrives. -/
theorem c5_witness :
    callbackTrace (firstEvent none [])
      = [CbEffect.closeListener, CbEffect.rejectErr "Callback timeout"]
    ∧ listenerOpenAfter (firstEvent none []) = false
    ∧ callbackTimeoutMs = 10000 :=
  c5_timeout_closes_and_rejects none [] (fun t ht => by cases ht)

/-- C6. On every exit path of a callback-bearing invocation — callback
received and handled, exception inside the handler, or timeout — the
listener is closed and never left open. -/
theorem c6_listener_never_leaked (ev : CbEvent) :
    CbEffect.closeListener ∈ callbackTrace ev
    ∧ listenerOpenAfter ev = false := by
  cases ev <;> simp [callbackTrace, listenerOpenAfter]

/-- C7. `bear_get_tags` with a missing (or otherwise falsy) token rejects
immediately with the invalid-parameters error, starting no listener,
opening no URL and building none. -/
theorem c7_getTags_requires_token (token : Option String) (port : Nat)
    (ev : CbEvent) (h : truthyS token = false) :
    (getTagsRun token port ev).result
      = Except.error (ToolError.invalidParams "Token is required for getTags")
    ∧ (getTagsRun token port ev).startedListener = false
    ∧ (getTagsRun token port ev).openedURL = false
    ∧ (getTagsRun token port ev).url = none := by
  simp [getTagsRun, h]

/-- Witness for C7: no token argument at all. -/
theorem c7_witness :
    truthyS none = false
    ∧ (getTagsRun none 0 CbEvent.timeout).result
        = Except.error (ToolError.invalidParams "Token is required for getTags")
    ∧ (getTagsRun none 0 CbEvent.timeout).startedListener = false :=
  ⟨rfl, (c7_getTags_requires_token none 0 CbEvent.timeout rfl).1,
   (c7_getTags_requires_token none 0 CbEvent.timeout rfl).2.1⟩

/-- C8 (code evaluation). Startup never reads the environment: even with
`BEAR_TOKEN` set, the server's `token` field stays unassigned, and a
`getTags` call without a per-call token still fails with invalid
parameters. A per-call token, by contrast, is passed through verbatim into
the outgoing URL. -/
theorem c8_env_token_never_read :
    (initServer [("BEAR_TOKEN", "secret")]).token = none
    ∧ (getTagsRun none 0 CbEvent.timeout).result
        = Except.error (ToolError.invalidParams "Token is required for getTags")
    ∧ (getTagsRun (some "secret") 50000 CbEvent.timeout).url
        = some ("bear://x-callback-url/tags?token=secret"
            ++ "&x-success=http%3A%2F%2Flocalhost%3A50000%2Fcallback") :=
  ⟨rfl, rfl, rfl⟩

end BearMCP
